import Mathlib

/-!
Shallow embedding of the n8n-video-processor Flask service
(src/app.py, src/utils.py, src/video_processor.py).

Strings are modelled with Lean `String`; character-level helpers work on
`String.data` so that Python's `str.rsplit('.', 1)` and `os.path.splitext`
are reproduced faithfully.  Filesystem contents are modelled as finite sets
of filenames per folder; the external FFmpeg binary and its probe are
modelled as oracles supplied to the functions that invoke them.
-/

namespace VideoProc

/-! ### utils.py -/

/-- `ALLOWED_EXTENSIONS` from src/utils.py lines 9-11, as character lists. -/
def ALLOWED_EXTENSIONS : List (List Char) :=
  ["mp4", "avi", "mov", "webm", "mkv", "flv", "m4v", "3gp"].map String.data

/-- Characters strictly after the last `'.'` of the list (the whole list when
there is no dot).  Mirrors Python `filename.rsplit('.', 1)[1]` when a dot is
present. -/
def afterLastDot : List Char → List Char
  | [] => []
  | c :: cs => if c = '.' && !(cs.contains '.') then cs else afterLastDot cs

/-- Characters strictly before the last `'.'` of the list. -/
def beforeLastDot : List Char → List Char
  | [] => []
  | c :: cs =>
      if cs.contains '.' then c :: beforeLastDot cs
      else if c = '.' then [] else c :: beforeLastDot cs

/-- ASCII case folding of a character list, mirroring Python `str.lower()`
on the ASCII filenames involved. -/
def lowerChars (l : List Char) : List Char := l.map Char.toLower

/-- `allowed_file` from src/utils.py lines 13-20:
empty filename is refused; otherwise the filename must contain a dot and the
lower-cased part after the last dot must be an allowed extension. -/
def allowed_file (filename : String) : Bool :=
  if filename = "" then false
  else filename.data.contains '.' &&
    ALLOWED_EXTENSIONS.contains (lowerChars (afterLastDot filename.data))

/-- The name part of Python `os.path.splitext`: everything before the last
dot, except that a dot with only dots before it does not start an extension
(so `".bashrc"` and `"..."` keep their full name). -/
def splitextName (l : List Char) : List Char :=
  if l.contains '.' && (beforeLastDot l).any (fun c => c ≠ '.') then
    beforeLastDot l
  else l

/-! ### VideoProcessor presets and FFmpeg output arguments
(src/video_processor.py) -/

/-- One entry of `quality_presets` (src/video_processor.py lines 19-24). -/
structure QPreset where
  crf : Nat
  preset : String
deriving DecidableEq, Repr

/-- `self.quality_presets` from src/video_processor.py lines 19-24. -/
def quality_presets : String → Option QPreset
  | "low" => some ⟨28, "fast"⟩
  | "medium" => some ⟨23, "medium"⟩
  | "high" => some ⟨18, "slow"⟩
  | "ultra" => some ⟨15, "veryslow"⟩
  | _ => none

/-- `self.resolution_presets` from src/video_processor.py lines 27-33. -/
def resolution_presets : String → Option String
  | "480p" => some "854:480"
  | "720p" => some "1280:720"
  | "1080p" => some "1920:1080"
  | "1440p" => some "2560:1440"
  | "4k" => some "3840:2160"
  | _ => none

/-- The keyword arguments handed to `ffmpeg.output` (`output_args` in
`process_video`); absent keys are `none`. -/
structure OutputArgs where
  vcodec : Option String := none
  acodec : Option String := none
  crf : Option Nat := none
  preset : Option String := none
deriving DecidableEq, Repr

/-- Codec selection per output format, src/video_processor.py lines 168-177.
No branch matches `"mkv"` (or any other format), which therefore sets no
codec keys. -/
def codecArgs (output_format : String) (args : OutputArgs) : OutputArgs :=
  if output_format = "mp4" ∨ output_format = "mov" then
    { args with vcodec := some "libx264", acodec := some "aac" }
  else if output_format = "webm" then
    { args with vcodec := some "libvpx-vp9", acodec := some "libvorbis" }
  else if output_format = "avi" then
    { args with vcodec := some "libx264", acodec := some "mp3" }
  else args

/-- Quality application, src/video_processor.py lines 179-184: only keys of
`quality_presets` change `crf`/`preset`. -/
def applyQuality (quality : String) (args : OutputArgs) : OutputArgs :=
  match quality_presets quality with
  | some p => { args with crf := some p.crf, preset := some p.preset }
  | none => args

/-- Compression application, src/video_processor.py lines 192-196:
`crf = min(output_args.get('crf', 23) + 5, 32)` and `preset = 'fast'`. -/
def applyCompression (compress : Bool) (args : OutputArgs) : OutputArgs :=
  if compress then
    { args with crf := some (min (args.crf.getD 23 + 5) 32),
                preset := some "fast" }
  else args

/-- The full `output_args` construction of `process_video` for a given
output format, quality and compress flag (resolution only affects the filter
chain, not `output_args`). -/
def buildOutputArgs (output_format quality : String) (compress : Bool) :
    OutputArgs :=
  applyCompression compress (applyQuality quality (codecArgs output_format {}))

/-- Encoding-speed rank of the x264 speed presets occurring in the code:
a strictly larger rank means a strictly slower (more thorough) preset. -/
def presetSlowness : String → Nat
  | "fast" => 1
  | "medium" => 2
  | "slow" => 3
  | "veryslow" => 4
  | _ => 0

/-- The quality tiers in increasing order of quality. -/
def qualityTiers : List String := ["low", "medium", "high", "ultra"]

/-- The `crf` of a tier (0 for unknown tiers; only used on known ones). -/
def crfOf (q : String) : Nat := ((quality_presets q).map QPreset.crf).getD 0

/-- The speed preset of a tier ("" for unknown tiers). -/
def presetOf (q : String) : String :=
  ((quality_presets q).map QPreset.preset).getD ""

/-! ### Probe output and `extract_metadata` (src/video_processor.py 51-133)

The probe's JSON numbers arrive as strings; `float`/`int` conversion is
modelled by carrying the values as `ℚ`/`ℤ` directly.  A missing key is
`none`. -/

/-- The `format` section of an `ffmpeg.probe` result. -/
structure ProbeFormat where
  duration : Option ℚ
  size : Option ℤ
  bit_rate : Option ℤ
  format_name : Option String
deriving DecidableEq, Repr

/-- One entry of the `streams` array of an `ffmpeg.probe` result.  Frame
rates are `num/den` pairs as parsed from the `"num/den"` strings. -/
structure ProbeStream where
  codec_type : String
  codec_name : Option String
  width : Option ℤ
  height : Option ℤ
  bit_rate : Option ℤ
  pix_fmt : Option String
  r_frame_rate : Option (ℚ × ℚ)
  avg_frame_rate : Option (ℚ × ℚ)
  sample_rate : Option ℤ
  channels : Option ℤ
deriving DecidableEq, Repr

/-- An `ffmpeg.probe` result. -/
structure ProbeResult where
  format : ProbeFormat
  streams : List ProbeStream
deriving DecidableEq, Repr

/-- `_get_fps` (src/video_processor.py lines 110-133): `r_frame_rate` first,
then `avg_frame_rate`, else `0.0`; a zero denominator raises and is caught,
yielding `0.0`. -/
def get_fps (rfr afr : Option (ℚ × ℚ)) : ℚ :=
  match rfr with
  | some (n, d) => if d = 0 then 0 else n / d
  | none =>
    match afr with
    | some (n, d) => if d = 0 then 0 else n / d
    | none => 0

/-- The `metadata['video']` sub-record. -/
structure VideoMeta where
  codec : String
  width : ℤ
  height : ℤ
  fps : ℚ
  bitrate : Option ℤ
  pixel_format : String
deriving DecidableEq, Repr

/-- The `metadata['audio']` sub-record. -/
structure AudioMeta where
  codec : String
  sample_rate : ℤ
  channels : ℤ
  bitrate : Option ℤ
deriving DecidableEq, Repr

/-- The metadata record returned by `extract_metadata`. -/
structure Metadata where
  duration : ℚ
  size : ℤ
  bitrate : ℤ
  format_name : String
  video : VideoMeta
  audio : Option AudioMeta
deriving DecidableEq, Repr

/-- `extract_metadata` (src/video_processor.py lines 51-108).
`fileInUploads` is `os.path.exists(os.path.join(self.upload_folder,
filename))`; `probe` is `none` when `ffmpeg.probe` raises.  The video
stream is the first stream with `codec_type == 'video'`, the audio stream
the first with `codec_type == 'audio'`; with no video stream the result is
`None`.  Missing keys default per the `.get(...)` calls in the source. -/
def extract_metadata (fileInUploads : Bool) (probe : Option ProbeResult) :
    Option Metadata :=
  if !fileInUploads then none
  else
    match probe with
    | none => none
    | some p =>
      match p.streams.find? (fun s => s.codec_type == "video") with
      | none => none
      | some vs =>
        let audio := p.streams.find? (fun s => s.codec_type == "audio")
        some
          { duration := p.format.duration.getD 0
            size := p.format.size.getD 0
            bitrate := p.format.bit_rate.getD 0
            format_name := p.format.format_name.getD ""
            video :=
              { codec := vs.codec_name.getD ""
                width := vs.width.getD 0
                height := vs.height.getD 0
                fps := get_fps vs.r_frame_rate vs.avg_frame_rate
                bitrate := vs.bit_rate
                pixel_format := vs.pix_fmt.getD "" }
            audio := audio.map (fun a =>
              { codec := a.codec_name.getD ""
                sample_rate := a.sample_rate.getD 0
                channels := a.channels.getD 0
                bitrate := a.bit_rate }) }

/-! ### `process_video` as a filesystem transition
(src/video_processor.py 135-248) -/

/-- The two folders the processor touches, each a finite set of filenames. -/
structure FSState where
  uploads : Finset String
  processed : Finset String

/-- The processing parameters dict handed to `process_video`
(`params.get` with the defaults used in the source). -/
structure ProcParams where
  output_format : Option String
  quality : Option String
  resolution : Option String
  compress : Bool

/-- External-world oracle for one `process_video` run: the probe result for
the input file, whether `ffmpeg.run` succeeds, and the probe result for the
output file. -/
structure ProcEnv where
  inputProbe : Option ProbeResult
  ffmpegOk : Bool
  outputProbe : Option ProbeResult

/-- The `file_size_reduction` record, carrying the two byte sizes it is
computed from (the MB rounding is presentation only). -/
structure SizeReduction where
  original_size : ℤ
  processed_size : ℤ
deriving DecidableEq, Repr

/-- The dict returned by `process_video`. -/
structure ProcResult where
  success : Bool
  output_file : Option String
  error : Option String
  metadata : Option Metadata
  file_size_reduction : Option SizeReduction

/-- Output filename: `f"{name}_processed.{output_format}"` with `name`
from `os.path.splitext` (src/video_processor.py lines 158-162). -/
def outputFilenameOf (filename fmt : String) : String :=
  String.mk (splitextName filename.data) ++ "_processed." ++ fmt

/-- `process_video` (src/video_processor.py lines 135-248) as a transition
on `FSState`.  Note that the post-run probe of the output file goes through
`extract_metadata`, which looks the file up in the *upload* folder, while
the output was written to the processed folder; `os.remove` of the input
succeeds since the input was checked to exist and nothing removed it. -/
def process_video (st : FSState) (filename : String) (params : ProcParams)
    (env : ProcEnv) : ProcResult × FSState :=
  if filename ∉ st.uploads then
    ({ success := false, output_file := none
       error := some ("Input file not found: " ++ filename)
       metadata := none, file_size_reduction := none }, st)
  else
    match extract_metadata (filename ∈ st.uploads) env.inputProbe with
    | none =>
      ({ success := false, output_file := none
         error := some "Failed to extract video metadata"
         metadata := none, file_size_reduction := none }, st)
    | some original_metadata =>
      let fmt := params.output_format.getD "mp4"
      let output_filename := outputFilenameOf filename fmt
      if !env.ffmpegOk then
        ({ success := false, output_file := none
           error := some "Video processing failed"
           metadata := none, file_size_reduction := none }, st)
      else
        let st1 : FSState :=
          { st with processed := insert output_filename st.processed }
        let processed_metadata :=
          extract_metadata (output_filename ∈ st1.uploads) env.outputProbe
        let original_size := original_metadata.size
        let processed_size :=
          match processed_metadata with
          | some m => m.size
          | none => 0
        let size_reduction :=
          if original_size > 0 ∧ processed_size > 0 then
            some { original_size := original_size
                   processed_size := processed_size }
          else none
        let st2 : FSState := { st1 with uploads := st1.uploads.erase filename }
        ({ success := true
           output_file := some output_filename
           error := none
           metadata :=
             match processed_metadata with
             | some m => some m
             | none => some original_metadata
           file_size_reduction := size_reduction }, st2)

/-- The `output_args` construction of one `process_video` run
(src/video_processor.py lines 164-196), from the raw params dict with the
`params.get` defaults of lines 160 and 180. -/
def ffmpegInvocationArgs (params : ProcParams) : OutputArgs :=
  buildOutputArgs (params.output_format.getD "mp4")
    (params.quality.getD "medium") params.compress

/-! ### app.py: the process webhook's pre-invocation phase, the download
route and the script-execution route -/

/-- The parts of an incoming multipart request that
`process_video_webhook` and `validate_request` inspect. -/
structure UploadRequest where
  content_type : Option String
  hasVideoFile : Bool
  filename : String
  output_format : Option String
  quality : Option String
  resolution : Option String

/-- The resolution check of `validate_request` (src/utils.py lines 61-66). -/
def validateResolutionField (req : UploadRequest) : Option String :=
  match req.resolution with
  | some r =>
    if r.toLower ∉ (["480p", "720p", "1080p", "1440p", "4k"] : List String)
    then some "Invalid resolution"
    else none
  | none => none

/-- The quality check of `validate_request` (src/utils.py lines 54-59),
falling through to the resolution check. -/
def validateQualityField (req : UploadRequest) : Option String :=
  match req.quality with
  | some q =>
    if q.toLower ∉ (["low", "medium", "high", "ultra"] : List String) then
      some "Invalid quality setting"
    else validateResolutionField req
  | none => validateResolutionField req

/-- `validate_request` (src/utils.py lines 31-68): `some errorMessage` on
failure, `none` when valid. -/
def validate_request (req : UploadRequest) : Option String :=
  match req.content_type with
  | none => some "Content-Type header missing"
  | some ct =>
    if !ct.startsWith "multipart/form-data" then
      some "Content-Type must be multipart/form-data for file uploads"
    else if !req.hasVideoFile then
      some "No video file in request"
    else
      match req.output_format with
      | some fmt =>
        if fmt.toLower ∉ (["mp4", "avi", "mov", "webm", "mkv"] : List String)
        then some "Invalid output format"
        else validateQualityField req
      | none => validateQualityField req

/-- Outcome of the part of `process_video_webhook` (src/app.py lines 46-107)
that runs before `video_processor.process_video`: either an error response
(HTTP status, `success` flag of the JSON body) returned without invoking
the external tool, or control reaching the `process_video` call. -/
inductive UploadPhase where
  | rejected (status : Nat) (success : Bool)
  | toolInvoked (filename : String)
deriving DecidableEq, Repr

/-- The pre-invocation control flow of `process_video_webhook`
(src/app.py lines 52-107): `validate_request`, the `'video' in
request.files` re-check, the empty-filename check, then `allowed_file`;
only after all pass is `process_video` reached (with a uuid-prefixed
filename, elided here). -/
def processUploadPhase (req : UploadRequest) : UploadPhase :=
  match validate_request req with
  | some _ => .rejected 400 false
  | none =>
    if !req.hasVideoFile then .rejected 400 false
    else if req.filename = "" then .rejected 400 false
    else if !allowed_file req.filename then .rejected 400 false
    else .toolInvoked req.filename

/-- Response of the download route. -/
inductive DownloadResponse where
  | attachment (path : String)
  | errorJson (status : Nat) (success : Bool) (error : String)
      (hasTimestamp : Bool)
deriving DecidableEq, Repr

/-- `download_file` (src/app.py lines 198-219): serve the file from the
processed folder as an attachment when it exists, else a 404 JSON
`{success: false, error, timestamp}`. -/
def download_file (processed : Finset String) (filename : String) :
    DownloadResponse :=
  if filename ∈ processed then .attachment filename
  else .errorJson 404 false "File not found" true

/-- The fixed output path the script-execution endpoint expects
(src/app.py line 262). -/
def video_source : String := "/tmp/n8n/simple_video/final_output.mp4"

/-- How one `subprocess.run(['bash', script], timeout=600)` call ends. -/
inductive ScriptOutcome where
  | timeout
  | exited (code : ℤ)
deriving DecidableEq, Repr

/-- Response of the script-execution route: HTTP status and the `success`
field of the JSON body. -/
structure ScriptResponse where
  status : Nat
  success : Bool
deriving DecidableEq, Repr

/-- `execute_script_webhook` (src/app.py lines 256-308) after the script
file has been written: `fsExists` tells which paths exist after the run.
Zero exit with the expected output present gives 200/success; zero exit
with it absent, nonzero exit, and timeout each give 500/failure. -/
def execute_script (o : ScriptOutcome) (fsExists : String → Bool) :
    ScriptResponse :=
  match o with
  | .timeout => { status := 500, success := false }
  | .exited code =>
    if code = 0 then
      if fsExists video_source then { status := 200, success := true }
      else { status := 500, success := false }
    else { status := 500, success := false }

/-! ### Helper lemmas -/

theorem applyQuality_vcodec (q : String) (a : OutputArgs) :
    (applyQuality q a).vcodec = a.vcodec := by
  unfold applyQuality; cases quality_presets q <;> rfl

theorem applyQuality_acodec (q : String) (a : OutputArgs) :
    (applyQuality q a).acodec = a.acodec := by
  unfold applyQuality; cases quality_presets q <;> rfl

theorem applyCompression_vcodec (c : Bool) (a : OutputArgs) :
    (applyCompression c a).vcodec = a.vcodec := by
  unfold applyCompression; cases c <;> simp

theorem applyCompression_acodec (c : Bool) (a : OutputArgs) :
    (applyCompression c a).acodec = a.acodec := by
  unfold applyCompression; cases c <;> simp

theorem buildOutputArgs_vcodec (fmt q : String) (c : Bool) :
    (buildOutputArgs fmt q c).vcodec = (codecArgs fmt {}).vcodec := by
  unfold buildOutputArgs
  rw [applyCompression_vcodec, applyQuality_vcodec]

theorem buildOutputArgs_acodec (fmt q : String) (c : Bool) :
    (buildOutputArgs fmt q c).acodec = (codecArgs fmt {}).acodec := by
  unfold buildOutputArgs
  rw [applyCompression_acodec, applyQuality_acodec]

theorem codecArgs_crf (fmt : String) (a : OutputArgs) :
    (codecArgs fmt a).crf = a.crf := by
  unfold codecArgs
  split
  · rfl
  · split
    · rfl
    · split <;> rfl

/-! ### Claims -/

/-- C1: the `output_format` parameter selects the container+codec pair of
the §4 table — mp4/mov give `libx264`/`aac`, webm gives
`libvpx-vp9`/`libvorbis`, avi gives `libx264`/`mp3` — independently of the
quality tier and the compress flag, and the accepted value `mkv` sets no
codec pair at all. -/
theorem C1_codec_selection (q : String) (c : Bool) :
    ((buildOutputArgs "mp4" q c).vcodec = some "libx264" ∧
      (buildOutputArgs "mp4" q c).acodec = some "aac") ∧
    ((buildOutputArgs "mov" q c).vcodec = some "libx264" ∧
      (buildOutputArgs "mov" q c).acodec = some "aac") ∧
    ((buildOutputArgs "webm" q c).vcodec = some "libvpx-vp9" ∧
      (buildOutputArgs "webm" q c).acodec = some "libvorbis") ∧
    ((buildOutputArgs "avi" q c).vcodec = some "libx264" ∧
      (buildOutputArgs "avi" q c).acodec = some "mp3") ∧
    ((buildOutputArgs "mkv" q c).vcodec = none ∧
      (buildOutputArgs "mkv" q c).acodec = none) := by
  refine ⟨⟨?_, ?_⟩, ⟨?_, ?_⟩, ⟨?_, ?_⟩, ⟨?_, ?_⟩, ?_, ?_⟩ <;>
    first
    | (rw [buildOutputArgs_vcodec]; rfl)
    | (rw [buildOutputArgs_acodec]; rfl)

/-- C2: with `compress = true`, for every quality tier known to
`quality_presets` and every output format, the rate factor passed to FFmpeg
is `min(base_crf + 5, 32)` — hence never above 32 — and the speed preset is
forced to `"fast"`, the fastest preset used by the code. -/
theorem C2_compression (fmt q : String) (p : QPreset)
    (hq : quality_presets q = some p) :
    (buildOutputArgs fmt q true).crf = some (min (p.crf + 5) 32) ∧
    min (p.crf + 5) 32 ≤ 32 ∧
    (buildOutputArgs fmt q true).preset = some "fast" ∧
    (qualityTiers.all fun t =>
      presetSlowness "fast" ≤ presetSlowness (presetOf t)) = true := by
  have hcrf : (applyQuality q (codecArgs fmt {})).crf = some p.crf := by
    unfold applyQuality; rw [hq]
  refine ⟨?_, min_le_right _ _, ?_, by decide⟩
  · unfold buildOutputArgs applyCompression
    simp [hcrf]
  · unfold buildOutputArgs applyCompression
    simp

/-- C2 witness at format mp4, tier low: the crf becomes
`min (28 + 5) 32 = 32` and the preset `"fast"`. -/
theorem C2_compression_witness :
    quality_presets "low" = some ⟨28, "fast"⟩ ∧
    ((buildOutputArgs "mp4" "low" true).crf = some (min (28 + 5) 32) ∧
      min (28 + 5) 32 ≤ 32 ∧
      (buildOutputArgs "mp4" "low" true).preset = some "fast" ∧
      (qualityTiers.all fun t =>
        presetSlowness "fast" ≤ presetSlowness (presetOf t)) = true) :=
  ⟨rfl, C2_compression "mp4" "low" ⟨28, "fast"⟩ rfl⟩

/-- C3: `quality_presets` maps low/medium/high/ultra to (28, fast),
(23, medium), (18, slow), (15, veryslow), and over the tier order
low < medium < high < ultra the crf is strictly decreasing while the speed
preset is strictly slower. -/
theorem C3_quality_monotone :
    quality_presets "low" = some ⟨28, "fast"⟩ ∧
    quality_presets "medium" = some ⟨23, "medium"⟩ ∧
    quality_presets "high" = some ⟨18, "slow"⟩ ∧
    quality_presets "ultra" = some ⟨15, "veryslow"⟩ ∧
    qualityTiers.Pairwise (fun q1 q2 =>
      crfOf q2 < crfOf q1 ∧
      presetSlowness (presetOf q1) < presetSlowness (presetOf q2)) := by
  refine ⟨rfl, rfl, rfl, rfl, ?_⟩
  decide

/-- C1 witness at quality "medium" with compression on: the codec pairs of
the table are produced unchanged. -/
theorem C1_codec_selection_witness :
    ((buildOutputArgs "mp4" "medium" true).vcodec = some "libx264" ∧
      (buildOutputArgs "mp4" "medium" true).acodec = some "aac") ∧
    ((buildOutputArgs "mov" "medium" true).vcodec = some "libx264" ∧
      (buildOutputArgs "mov" "medium" true).acodec = some "aac") ∧
    ((buildOutputArgs "webm" "medium" true).vcodec = some "libvpx-vp9" ∧
      (buildOutputArgs "webm" "medium" true).acodec = some "libvorbis") ∧
    ((buildOutputArgs "avi" "medium" true).vcodec = some "libx264" ∧
      (buildOutputArgs "avi" "medium" true).acodec = some "mp3") ∧
    ((buildOutputArgs "mkv" "medium" true).vcodec = none ∧
      (buildOutputArgs "mkv" "medium" true).acodec = none) :=
  C1_codec_selection "medium" true

/-- C4: a process request whose filename fails `allowed_file` is answered
with HTTP 400 and `success: false` before `process_video` (and hence the
external tool) is reached; conversely any filename containing a dot whose
lower-cased last-dot suffix is an allowed extension passes the check. -/
theorem C4_extension_rejection :
    (∀ req : UploadRequest, allowed_file req.filename = false →
      processUploadPhase req = .rejected 400 false) ∧
    (∀ f : String, f.data.contains '.' = true →
      ALLOWED_EXTENSIONS.contains (lowerChars (afterLastDot f.data)) = true →
      allowed_file f = true) := by
  constructor
  · intro req h
    unfold processUploadPhase
    cases hv : validate_request req
    · cases h1 : req.hasVideoFile
      · simp
      · by_cases h2 : req.filename = ""
        · simp [h2]
        · simp [h2, h]
    · rfl
  · intro f h1 h2
    have hne : f ≠ "" := by
      intro he
      subst he
      exact absurd h1 (by decide)
    unfold allowed_file
    rw [if_neg hne, h1, h2]
    rfl

/-- C4 witness: a syntactically valid multipart request carrying
`report.txt` is rejected 400/`success: false` before tool invocation, and
`clip.MP4` passes the extension check. -/
theorem C4_extension_rejection_witness :
    processUploadPhase
      { content_type := some "multipart/form-data"
        hasVideoFile := true
        filename := "report.txt"
        output_format := none, quality := none, resolution := none } =
      .rejected 400 false ∧
    allowed_file "clip.MP4" = true :=
  ⟨C4_extension_rejection.1 _ (by decide),
   C4_extension_rejection.2 "clip.MP4" (by decide) (by decide)⟩

/-- C10: `allowed_file` is total and case-insensitive: it returns `true`
exactly when the filename contains a dot and the lower-cased part after the
last dot is an allowed extension, and it returns `false` on the empty
filename and on any dot-free filename. -/
theorem C10_allowed_file_total (f : String) :
    (allowed_file f = true ↔
      f.data.contains '.' = true ∧
      ALLOWED_EXTENSIONS.contains (lowerChars (afterLastDot f.data)) = true) ∧
    (f = "" → allowed_file f = false) ∧
    (f.data.contains '.' = false → allowed_file f = false) := by
  refine ⟨?_, ?_, ?_⟩
  · by_cases he : f = ""
    · subst he; decide
    · unfold allowed_file
      rw [if_neg he, Bool.and_eq_true]
  · intro he; subst he; decide
  · intro h
    unfold allowed_file
    split
    · rfl
    · rw [h, Bool.false_and]

/-- C10 witness at `Video.MKV` (mixed case, accepted) and `archive`
(dot-free, refused). -/
theorem C10_allowed_file_total_witness :
    allowed_file "Video.MKV" = true ∧ allowed_file "archive" = false :=
  ⟨(C10_allowed_file_total "Video.MKV").1.2 ⟨by decide, by decide⟩,
   (C10_allowed_file_total "archive").2.2 (by decide)⟩

/-- C5: a successful `process_video` run removes the original file from the
upload folder and adds exactly the named output file to the processed
folder (exactly one new file when the name was not already taken). -/
theorem C5_success_cleanup (st : FSState) (filename : String)
    (params : ProcParams) (env : ProcEnv) (res : ProcResult) (st' : FSState)
    (hrun : process_video st filename params env = (res, st'))
    (hs : res.success = true) :
    res.output_file =
      some (outputFilenameOf filename (params.output_format.getD "mp4")) ∧
    filename ∉ st'.uploads ∧
    st'.uploads = st.uploads.erase filename ∧
    st'.processed =
      insert (outputFilenameOf filename (params.output_format.getD "mp4"))
        st.processed ∧
    (outputFilenameOf filename (params.output_format.getD "mp4") ∉
        st.processed →
      st'.processed \ st.processed =
        {outputFilenameOf filename (params.output_format.getD "mp4")}) := by
  simp only [process_video] at hrun
  split at hrun
  · injection hrun with h1 h2
    subst h1
    simp at hs
  · split at hrun
    · injection hrun with h1 h2
      subst h1
      simp at hs
    · split at hrun
      · injection hrun with h1 h2
        subst h1
        simp at hs
      · injection hrun with h1 h2
        subst h1
        subst h2
        refine ⟨rfl, Finset.not_mem_erase _ _, rfl, rfl, fun hnp => ?_⟩
        exact Finset.insert_sdiff_cancel hnp

/-- C9: on a successful run in which probing the processed output yields no
metadata, the returned metadata silently falls back to the input file's
metadata and `file_size_reduction` is `none`, while `success` stays true. -/
theorem C9_metadata_fallback (st : FSState) (filename : String)
    (params : ProcParams) (env : ProcEnv) (res : ProcResult) (st' : FSState)
    (hrun : process_video st filename params env = (res, st'))
    (hs : res.success = true)
    (hpm : extract_metadata
        (outputFilenameOf filename (params.output_format.getD "mp4") ∈
          st.uploads) env.outputProbe = none) :
    res.metadata = extract_metadata (filename ∈ st.uploads) env.inputProbe ∧
    res.file_size_reduction = none := by
  simp only [process_video] at hrun
  split at hrun
  · injection hrun with h1 h2
    subst h1
    simp at hs
  · split at hrun
    · injection hrun with h1 h2
      subst h1
      simp at hs
    · split at hrun
      · injection hrun with h1 h2
        subst h1
        simp at hs
      · rename_i hmem original_metadata hm hff
        injection hrun with h1 h2
        subst h1
        rw [hm]
        constructor
        · simp only [hpm]
        · simp only [hpm]
          simp

/-- C6: the script-execution endpoint answers 500 exactly on nonzero exit,
missing expected output after a zero exit, or timeout; a zero exit with the
expected output present gives 200 with `success: true`. -/
theorem C6_script_status (fsExists : String → Bool) (code : ℤ) :
    execute_script .timeout fsExists = { status := 500, success := false } ∧
    ((execute_script (.exited code) fsExists).status = 500 ↔
      code ≠ 0 ∨ fsExists video_source = false) ∧
    (code = 0 → fsExists video_source = true →
      execute_script (.exited code) fsExists =
        { status := 200, success := true }) := by
  refine ⟨rfl, ?_, ?_⟩
  · unfold execute_script
    by_cases hc : code = 0
    · cases hp : fsExists video_source <;> simp [hc, hp]
    · simp [hc]
  · intro hc hp
    unfold execute_script
    simp [hc, hp]

/-- C6 witness: a zero exit with the output present yields 200/success,
a timeout yields 500. -/
theorem C6_script_status_witness :
    execute_script .timeout (fun _ => true) =
      { status := 500, success := false } ∧
    ((execute_script (.exited 0) (fun _ => true)).status = 500 ↔
      (0 : ℤ) ≠ 0 ∨ (fun _ => true) video_source = false) ∧
    ((0 : ℤ) = 0 → (fun _ => true) video_source = true →
      execute_script (.exited 0) (fun _ => true) =
        { status := 200, success := true }) :=
  C6_script_status (fun _ => true) 0

/-- C7: for a probe with a video stream whose `duration`, `size` and
`codec_name` keys are present, `extract_metadata` re-exposes those three
values unaltered. -/
theorem C7_metadata_roundtrip (p : ProbeResult) (vs : ProbeStream) (d : ℚ)
    (n : ℤ) (c : String)
    (hfind : p.streams.find? (fun s => s.codec_type == "video") = some vs)
    (hd : p.format.duration = some d)
    (hn : p.format.size = some n)
    (hc : vs.codec_name = some c) :
    ∃ m, extract_metadata true (some p) = some m ∧
      m.duration = d ∧ m.size = n ∧ m.video.codec = c := by
  simp only [extract_metadata, Bool.not_true, Bool.false_eq_true,
    if_false, hfind]
  exact ⟨_, rfl, by rw [hd]; rfl, by rw [hn]; rfl, by simp [hc]⟩

/-- C8: downloading a name absent from the processed folder yields the 404
error envelope `{success: false, error, timestamp}`; a present name is
served as an attachment. -/
theorem C8_download_missing (processed : Finset String) (filename : String) :
    (filename ∉ processed →
      download_file processed filename =
        .errorJson 404 false "File not found" true) ∧
    (filename ∈ processed →
      download_file processed filename = .attachment filename) := by
  constructor <;> intro h <;> simp [download_file, h]

/-- C8 witness: `missing.mp4` against an empty processed folder is a 404
envelope; a present file is served as attachment. -/
theorem C8_download_missing_witness :
    download_file ∅ "missing.mp4" =
      .errorJson 404 false "File not found" true ∧
    download_file {"a_processed.mp4"} "a_processed.mp4" =
      .attachment "a_processed.mp4" :=
  ⟨(C8_download_missing ∅ "missing.mp4").1 (by decide),
   (C8_download_missing {"a_processed.mp4"} "a_processed.mp4").2 (by decide)⟩

/-! ### Concrete sample data used by witnesses -/

/-- A concrete probe result: one h264 video stream, duration 12 s,
2048 bytes. -/
def sampleProbe : ProbeResult :=
  { format :=
      { duration := some 12, size := some 2048, bit_rate := some 1000
        format_name := some "mov,mp4,m4a,3gp,3g2,mj2" }
    streams :=
      [{ codec_type := "video", codec_name := some "h264"
         width := some 1280, height := some 720, bit_rate := some 900
         pix_fmt := some "yuv420p", r_frame_rate := some (30, 1)
         avg_frame_rate := some (30, 1), sample_rate := none
         channels := none }] }

/-- A folder state holding exactly one uploaded clip. -/
def sampleState : FSState := { uploads := {"clip.mp4"}, processed := ∅ }

/-- Default-ish processing parameters. -/
def sampleParams : ProcParams :=
  { output_format := some "mp4", quality := some "medium"
    resolution := none, compress := false }

/-- An oracle for a run where the input probe succeeds, FFmpeg succeeds,
and probing the output yields nothing. -/
def sampleEnv : ProcEnv :=
  { inputProbe := some sampleProbe, ffmpegOk := true, outputProbe := none }

/-- The run of `process_video` on the sample data. -/
def sampleRun : ProcResult × FSState :=
  process_video sampleState "clip.mp4" sampleParams sampleEnv

/-- C5 witness: the sample run succeeds, deletes `clip.mp4` from the upload
folder and adds exactly `clip_processed.mp4` to the processed folder. -/
theorem C5_success_cleanup_witness :
    sampleRun.1.success = true ∧
    (sampleRun.1.output_file =
        some (outputFilenameOf "clip.mp4"
          (sampleParams.output_format.getD "mp4")) ∧
      "clip.mp4" ∉ sampleRun.2.uploads ∧
      sampleRun.2.uploads = sampleState.uploads.erase "clip.mp4" ∧
      sampleRun.2.processed =
        insert (outputFilenameOf "clip.mp4"
          (sampleParams.output_format.getD "mp4")) sampleState.processed ∧
      (outputFilenameOf "clip.mp4" (sampleParams.output_format.getD "mp4") ∉
          sampleState.processed →
        sampleRun.2.processed \ sampleState.processed =
          {outputFilenameOf "clip.mp4"
            (sampleParams.output_format.getD "mp4")})) :=
  ⟨by decide,
   C5_success_cleanup sampleState "clip.mp4" sampleParams sampleEnv
     sampleRun.1 sampleRun.2 rfl (by decide)⟩

/-- C9 witness: in the sample run the output probe yields nothing, so the
response metadata is the input file's metadata and `file_size_reduction` is
`none`. -/
theorem C9_metadata_fallback_witness :
    sampleRun.1.success = true ∧
    extract_metadata
      (outputFilenameOf "clip.mp4" (sampleParams.output_format.getD "mp4") ∈
        sampleState.uploads) sampleEnv.outputProbe = none ∧
    (sampleRun.1.metadata =
        extract_metadata ("clip.mp4" ∈ sampleState.uploads)
          sampleEnv.inputProbe ∧
      sampleRun.1.file_size_reduction = none) :=
  ⟨by decide, by decide,
   C9_metadata_fallback sampleState "clip.mp4" sampleParams sampleEnv
     sampleRun.1 sampleRun.2 rfl (by decide) (by decide)⟩

/-- C7 witness: on the sample probe, `extract_metadata` re-exposes
duration 12, size 2048 and codec `h264`. -/
theorem C7_metadata_roundtrip_witness :
    ∃ m, extract_metadata true (some sampleProbe) = some m ∧
      m.duration = 12 ∧ m.size = 2048 ∧ m.video.codec = "h264" :=
  C7_metadata_roundtrip sampleProbe
    { codec_type := "video", codec_name := some "h264"
      width := some 1280, height := some 720, bit_rate := some 900
      pix_fmt := some "yuv420p", r_frame_rate := some (30, 1)
      avg_frame_rate := some (30, 1), sample_rate := none, channels := none }
    12 2048 "h264" (by decide) (by decide) (by decide) (by decide)

end VideoProc
